import Mathlib

/-!
Verification of the per-client session state machine of the wsrep-API
replication coordination core, shallowly embedded from
`src/src/client_state.cpp` (with supporting declarations from
`src/include/wsrep/server_state.hpp`).

The embedding is sequential and pure: every hook of
`wsrep::client_state` becomes a function on an explicit record of the
client's fields; a C++ `throw wsrep::runtime_error(...)` (the fatal
condition raised on an illegal transition or on overriding an error
with success) becomes the `Except.error` constructor, which propagates
through the hook just as the exception does.  Debug `assert`s in the
source are not baked into the definitions; theorems carry them as
hypotheses where relevant.
-/

namespace Wsrep

/-- Client lifecycle states, in the row/column order of the transition
table in `wsrep::client_state::state` (`client_state.cpp`):
none, idle, exec, result, quit. -/
inductive client_lifecycle_state where
  | s_none
  | s_idle
  | s_exec
  | s_result
  | s_quitting
deriving DecidableEq, Repr, Fintype

/-- Client modes, in the row/column order of the transition table in
`wsrep::client_state::mode` (`client_state.cpp`): local, repl,
high prio, toi. -/
inductive client_mode where
  | m_local
  | m_replicating
  | m_high_priority
  | m_toi
deriving DecidableEq, Repr, Fintype

/-- Modelled from the spec: the per-session client error enumeration
(success, deadlock, interrupted, size-exceeded, append-fragment,
error-during-commit).  `client_state.cpp` references `e_success`,
`e_deadlock_error` and `e_error_during_commit`; the defining header is
not part of the sources, so the remaining values are taken from the
spec's error list. -/
inductive client_error where
  | e_success
  | e_deadlock_error
  | e_interrupted_error
  | e_size_exceeded_error
  | e_append_fragment_error
  | e_error_during_commit
deriving DecidableEq, Repr, Fintype

/-- Modelled from the spec: the transaction substates of the transaction
collaborator that `client_state.cpp` inspects (`s_executing`,
`s_must_abort`, `s_aborting`, `s_aborted`); the transaction machine
itself is a separate document, so only the substates the client code
reads are modelled. -/
inductive transaction_state where
  | s_executing
  | s_must_abort
  | s_aborting
  | s_aborted
deriving DecidableEq, Repr, Fintype

/-- Rollback modes, from `wsrep::server_state::rollback_mode`
(`server_state.hpp`): asynchronous or synchronous. -/
inductive rollback_mode where
  | rm_async
  | rm_sync
deriving DecidableEq, Repr, Fintype

/-- Modelled from the spec: provider status enumeration (success,
warning, trx-missing, cert-failed, bf-abort, size-exceeded,
connection-failed, not-allowed, fatal); `client_state.cpp` only
distinguishes `wsrep::provider::success` from every other value. -/
inductive provider_status where
  | success
  | error_warning
  | error_transaction_missing
  | error_certification_failed
  | error_bf_abort
  | error_size_exceeded
  | error_connection_failed
  | error_not_allowed
  | error_fatal
deriving DecidableEq, Repr, Fintype

/-- The transaction collaborator as `client_state.cpp` observes it: an
active flag and the current substate. -/
structure transaction where
  active : Bool
  state : transaction_state
deriving DecidableEq, Repr

/-- Modelled from the spec: a write-set meta record (`wsrep::ws_meta`).
Its contents are irrelevant to the client state machine, which only
stores it on TOI entry and resets it to a default-constructed value on
TOI exit; a single abstract tag field suffices. -/
structure ws_meta where
  tag : Nat
deriving DecidableEq, Repr

/-- Modelled from the spec: the default-constructed `wsrep::ws_meta()`
that `leave_toi` assigns to clear the TOI meta. -/
def empty_ws_meta : ws_meta := { tag := 0 }

/-- The fields of `wsrep::client_state` that `client_state.cpp`
reads or writes (thread-id bookkeeping, which only feeds debug
assertions, is omitted). -/
structure client_state where
  state_ : client_lifecycle_state
  mode_ : client_mode
  toi_mode_ : client_mode
  current_error_ : client_error
  transaction_ : transaction
  toi_meta_ : ws_meta
  id_ : Nat
deriving DecidableEq, Repr

/-- The fatal conditions `client_state.cpp` raises via
`wsrep::runtime_error`: an unallowed state transition, an unallowed
mode transition, or overriding a non-success error with success. -/
inductive fatal_error where
  | unallowed_state_transition
      (from_ : client_lifecycle_state) (to_ : client_lifecycle_state)
  | unallowed_mode_transition (from_ : client_mode) (to_ : client_mode)
  | overriding_error_with_success
deriving DecidableEq, Repr

/-- The `allowed` matrix of `wsrep::client_state::state`
(`client_state.cpp`), rows = current state, columns = requested state:
```
       none idle exec result quit
none  {  0,   1,   0,   0,     0}
idle  {  0,   0,   1,   0,     1}
exec  {  0,   0,   0,   1,     0}
result{  0,   1,   0,   0,     0}
quit  {  1,   0,   0,   0,     0}
```
The function returns the 1-cells of the table. -/
def state_transition_allowed :
    client_lifecycle_state → client_lifecycle_state → Bool
  | .s_none, .s_idle => true
  | .s_idle, .s_exec => true
  | .s_idle, .s_quitting => true
  | .s_exec, .s_result => true
  | .s_result, .s_idle => true
  | .s_quitting, .s_none => true
  | _, _ => false

/-- The `allowed` matrix of `wsrep::client_state::mode`
(`client_state.cpp`), rows = current mode, columns = requested mode:
```
        l  r  h  t
local { 0, 0, 0, 0 }
repl  { 0, 0, 1, 1 }
hp    { 0, 1, 0, 1 }
toi   { 0, 1, 1, 0 }
```
The function returns the 1-cells of the table. -/
def mode_transition_allowed : client_mode → client_mode → Bool
  | .m_replicating, .m_high_priority => true
  | .m_replicating, .m_toi => true
  | .m_high_priority, .m_replicating => true
  | .m_high_priority, .m_toi => true
  | .m_toi, .m_replicating => true
  | .m_toi, .m_high_priority => true
  | _, _ => false

/-- `wsrep::client_state::state(lock, state)`: if the transition from
the current state is allowed by the table, assign it; otherwise throw
`wsrep::runtime_error` (the assignment never happens, so the state is
left unchanged when the exception propagates). -/
def client_state.set_state (cs : client_state)
    (to_ : client_lifecycle_state) : Except fatal_error client_state :=
  if state_transition_allowed cs.state_ to_ then
    .ok { cs with state_ := to_ }
  else
    .error (.unallowed_state_transition cs.state_ to_)

/-- `wsrep::client_state::mode(lock, mode)`: if the transition from the
current mode is allowed by the table, assign it; otherwise throw
`wsrep::runtime_error`. -/
def client_state.set_mode (cs : client_state) (to_ : client_mode) :
    Except fatal_error client_state :=
  if mode_transition_allowed cs.mode_ to_ then
    .ok { cs with mode_ := to_ }
  else
    .error (.unallowed_mode_transition cs.mode_ to_)

/-- `wsrep::client_state::override_error(error)`: throws when the
current error is not success and the new error is success; otherwise
assigns the new error. -/
def client_state.override_error (cs : client_state) (e : client_error) :
    Except fatal_error client_state :=
  if cs.current_error_ ≠ .e_success ∧ e = .e_success then
    .error .overriding_error_with_success
  else
    .ok { cs with current_error_ := e }

/-- Modelled from the spec: the client-service collaborator's
`rollback()` (invoked off-lock by before_command,
after_command_before_result, after_command_after_result and close)
rolls the active transaction back to the aborted substate.  Its effect
on the substate is pinned by the assertions following every call in
`client_state.cpp` (`transaction_.state() == s_aborted`); it does not
by itself deactivate the transaction (cleanup is the job of the
transaction's `after_statement`). -/
def service_rollback (t : transaction) : transaction :=
  { t with state := .s_aborted }

/-- Modelled from the spec: the transaction collaborator's
`after_statement()` performs statement-end cleanup: an aborted
transaction is cleaned up and deactivated (pinned by the assertions in
`before_command`: after rollback plus `after_statement` the transaction
is in the aborted substate and no longer active).  For any other
substate the client state machine does not constrain the effect, and
the embedding leaves the transaction unchanged; none of the verified
properties depends on that case. -/
def transaction.after_statement (t : transaction) : transaction :=
  if t.state = .s_aborted then { active := false, state := .s_aborted }
  else t

/-- `wsrep::client_state::open(id)`: records the owning thread id
(omitted), transitions the lifecycle state to idle, and stores the
client id. -/
def open_client (cs : client_state) (id : Nat) :
    Except fatal_error client_state := do
  let cs1 ← cs.set_state .s_idle
  pure { cs1 with id_ := id }

/-- `wsrep::client_state::close()`: transitions to quitting, then (off
lock) rolls the transaction back if it is still active. -/
def close_client (cs : client_state) : Except fatal_error client_state := do
  let cs1 ← cs.set_state .s_quitting
  if cs1.transaction_.active then
    pure { cs1 with transaction_ := service_rollback cs1.transaction_ }
  else
    pure cs1

/-- `wsrep::client_state::cleanup()`: transitions the lifecycle state
to none. -/
def cleanup_client (cs : client_state) : Except fatal_error client_state :=
  cs.set_state .s_none

/-- The body of `wsrep::client_state::before_command` after the
synchronous-rollback wait loop (`client_state.cpp` from the
`state(lock, s_exec)` call to the return): transition idle→exec; then,
if a transaction is active: in the must-abort substate override the
error to deadlock, roll back, run the transaction's `after_statement`
and return 1; in the aborted substate override the error to deadlock,
run `after_statement` and return 1; otherwise (and when no transaction
is active) return 0. -/
def before_command_post (cs : client_state) :
    Except fatal_error (client_state × Nat) := do
  let cs1 ← cs.set_state .s_exec
  if cs1.transaction_.active then
    if cs1.transaction_.state = .s_must_abort then do
      let cs2 ← cs1.override_error .e_deadlock_error
      let t := (service_rollback cs2.transaction_).after_statement
      pure ({ cs2 with transaction_ := t }, 1)
    else if cs1.transaction_.state = .s_aborted then do
      let cs2 ← cs1.override_error .e_deadlock_error
      let t := cs2.transaction_.after_statement
      pure ({ cs2 with transaction_ := t }, 1)
    else
      pure (cs1, 0)
  else
    pure (cs1, 0)

/-- Locate the first observation index at which the transaction is not
in the aborting substate, scanning from `start` with the given fuel.
This renders the busy-wait loop of `before_command`
(`while (transaction_.state() == s_aborting) { }`): each iteration
re-reads the transaction, which only the concurrent background
rollbacker can change, so the successive reads are an observation
sequence `obs`. -/
def first_non_aborting (obs : Nat → transaction) :
    Nat → Nat → Option Nat
  | _, 0 => none
  | start, fuel + 1 =>
      if (obs start).state = .s_aborting then
        first_non_aborting obs (start + 1) fuel
      else
        some start

/-- `wsrep::client_state::before_command()`: in synchronous rollback
mode, spin while the transaction is observed in the aborting substate
(the condition-variable wait is commented out in the source, leaving a
busy loop); the observation sequence `obs` gives the transaction as
read at each iteration, and `none` is returned when the wait does not
finish within `fuel` observations.  Afterwards (and immediately, in
asynchronous mode) run `before_command_post` on the client with the
transaction as last observed. -/
def before_command (rm : rollback_mode) (obs : Nat → transaction)
    (fuel : Nat) (cs : client_state) :
    Option (Except fatal_error (client_state × Nat)) :=
  match rm with
  | .rm_sync =>
      match first_non_aborting obs 0 fuel with
      | none => none
      | some k => some (before_command_post { cs with transaction_ := obs k })
  | .rm_async => some (before_command_post cs)

/-- `wsrep::client_state::before_statement()`: returns 1 when an
active transaction is in the must-abort substate (rollback happens in
the post-command hook), else 0. -/
def before_statement (cs : client_state) : Nat :=
  if cs.transaction_.active ∧ cs.transaction_.state = .s_must_abort then 1
  else 0

/-- The result enumeration of
`wsrep::client_state::after_statement`. -/
inductive after_statement_result where
  | asr_success
  | asr_may_retry
  | asr_error
deriving DecidableEq, Repr, Fintype

/-- `wsrep::client_state::after_statement()`: invokes the
transaction's `after_statement`; if the client error then reads
deadlock, report may-retry when the mode is replicating and the client
service reports autocommit, otherwise report error; with any other
error report success.  `is_autocommit` is the value returned by the
client-service collaborator. -/
def after_statement (is_autocommit : Bool) (cs : client_state) :
    client_state × after_statement_result :=
  let cs1 := { cs with transaction_ := cs.transaction_.after_statement }
  if cs1.current_error_ = .e_deadlock_error then
    if cs1.mode_ = .m_replicating ∧ is_autocommit then
      (cs1, .asr_may_retry)
    else
      (cs1, .asr_error)
  else
    (cs1, .asr_success)

/-- `wsrep::client_state::after_command_before_result()`: if an active
transaction is in the must-abort substate, override the error to
deadlock, roll back and run the transaction's `after_statement`; then
transition exec→result. -/
def after_command_before_result (cs : client_state) :
    Except fatal_error client_state := do
  let cs1 ←
    if cs.transaction_.active ∧ cs.transaction_.state = .s_must_abort then do
      let cs2 ← cs.override_error .e_deadlock_error
      let t := (service_rollback cs2.transaction_).after_statement
      pure { cs2 with transaction_ := t }
    else
      pure cs
  cs1.set_state .s_result

/-- `wsrep::client_state::after_command_after_result()`: if an active
transaction is in the must-abort substate, roll back and override the
error to deadlock; otherwise, if no transaction is active, assign
success to the current error directly; then transition result→idle. -/
def after_command_after_result (cs : client_state) :
    Except fatal_error client_state := do
  let cs1 ←
    if cs.transaction_.active ∧ cs.transaction_.state = .s_must_abort then do
      let cs2 := { cs with transaction_ := service_rollback cs.transaction_ }
      cs2.override_error .e_deadlock_error
    else if cs.transaction_.active = false then
      pure { cs with current_error_ := .e_success }
    else
      pure cs
  cs1.set_state .s_idle

/-- A provider call issued by the client state machine, for tracking
which TOI operations reach the provider. -/
inductive provider_call where
  | enter_toi_call
  | leave_toi_call
deriving DecidableEq, Repr

/-- `wsrep::client_state::enter_toi(keys, buffer, flags)` (the
replicating-mode overload): calls the provider's enter-TOI (which on
success fills the TOI meta, modelled by `pmeta`); on success saves the
current mode in `toi_mode_` and shifts the mode to TOI, returning 0;
on any other provider status overrides the error to
error-during-commit and returns 1.  The returned list records the
provider calls issued. -/
def enter_toi_repl (pstatus : provider_status) (pmeta : ws_meta)
    (cs : client_state) :
    Except fatal_error (client_state × Nat × List provider_call) :=
  match pstatus with
  | .success => do
      let cs1 := { cs with toi_mode_ := cs.mode_, toi_meta_ := pmeta }
      let cs2 ← cs1.set_mode .m_toi
      pure (cs2, 0, [.enter_toi_call])
  | _ => do
      let cs2 ← cs.override_error .e_error_during_commit
      pure (cs2, 1, [.enter_toi_call])

/-- `wsrep::client_state::enter_toi(ws_meta)` (the high-priority-mode
overload): saves the current mode in `toi_mode_`, shifts the mode to
TOI, stores the meta and returns 0 — no provider call is made (the
applier is already serialized by the provider). -/
def enter_toi_hp (meta : ws_meta) (cs : client_state) :
    Except fatal_error (client_state × Nat × List provider_call) := do
  let cs1 := { cs with toi_mode_ := cs.mode_ }
  let cs2 ← cs1.set_mode .m_toi
  pure ({ cs2 with toi_meta_ := meta }, 0, [])

/-- `wsrep::client_state::leave_toi()`: if the saved TOI mode is
replicating, call the provider's leave-TOI (`pstatus` is its result;
on failure override the error to error-during-commit and set the
return value to 1, on success to 0); when the saved mode is not
replicating no provider call is made and the C++ return value is left
uninitialized, rendered here as `none`.  Then restore the saved mode,
reset the saved TOI mode to local and clear the TOI meta. -/
def leave_toi (pstatus : provider_status) (cs : client_state) :
    Except fatal_error (client_state × Option Nat × List provider_call) := do
  let step1 :
      Except fatal_error (client_state × Option Nat × List provider_call) :=
    if cs.toi_mode_ = .m_replicating then
      match pstatus with
      | .success => pure (cs, some 0, [.leave_toi_call])
      | _ => do
          let cs2 ← cs.override_error .e_error_during_commit
          pure (cs2, some 1, [.leave_toi_call])
    else
      pure (cs, none, [])
  let (cs1, ret, calls) ← step1
  let cs2 ← cs1.set_mode cs1.toi_mode_
  pure ({ cs2 with toi_mode_ := .m_local, toi_meta_ := empty_ws_meta },
        ret, calls)

/-- The six client lifecycle transitions the specification permits:
none→idle, idle→executing, idle→quitting, executing→result,
result→idle, quitting→none.  This is the spec-side list, to be
compared with the source-side table `state_transition_allowed`. -/
def permitted_state_pairs :
    List (client_lifecycle_state × client_lifecycle_state) :=
  [(.s_none, .s_idle), (.s_idle, .s_exec), (.s_idle, .s_quitting),
   (.s_exec, .s_result), (.s_result, .s_idle), (.s_quitting, .s_none)]

/-- The six client mode transitions the specification permits:
replicating↔high-priority, replicating↔TOI, high-priority↔TOI.  This
is the spec-side list, to be compared with the source-side table
`mode_transition_allowed`. -/
def permitted_mode_pairs : List (client_mode × client_mode) :=
  [(.m_replicating, .m_high_priority), (.m_high_priority, .m_replicating),
   (.m_replicating, .m_toi), (.m_toi, .m_replicating),
   (.m_high_priority, .m_toi), (.m_toi, .m_high_priority)]

/-- A fixed concrete client used to instantiate witnesses: a freshly
constructed client in state none, mode local, with no active
transaction and no error. -/
def witness_client : client_state :=
  { state_ := .s_none, mode_ := .m_local, toi_mode_ := .m_local,
    current_error_ := .e_success,
    transaction_ := { active := false, state := .s_executing },
    toi_meta_ := empty_ws_meta, id_ := 0 }

/-- The source-side transition table agrees cellwise with the
spec-side list of permitted lifecycle transitions. -/
lemma state_allowed_iff_mem (f t : client_lifecycle_state) :
    state_transition_allowed f t = true ↔ (f, t) ∈ permitted_state_pairs := by
  revert f t
  decide

/-- The source-side mode table agrees cellwise with the spec-side list
of permitted mode transitions. -/
lemma mode_allowed_iff_mem (f t : client_mode) :
    mode_transition_allowed f t = true ↔ (f, t) ∈ permitted_mode_pairs := by
  revert f t
  decide

/-- C1: a client lifecycle transition succeeds exactly when the pair
(current state, requested state) is one of none→idle, idle→executing,
idle→quitting, executing→result, result→idle, quitting→none; every
other attempt produces the unallowed-state-transition fatal condition
(an `Except.error`, never silently ignored), and since the exception
is raised before the assignment the state is left unchanged. -/
theorem state_transition_table_correct (cs : client_state)
    (to_ : client_lifecycle_state) :
    ((∃ cs', cs.set_state to_ = .ok cs' ∧ cs'.state_ = to_) ↔
      (cs.state_, to_) ∈ permitted_state_pairs) ∧
    ((cs.state_, to_) ∉ permitted_state_pairs →
      cs.set_state to_ = .error (.unallowed_state_transition cs.state_ to_)) := by
  by_cases h : state_transition_allowed cs.state_ to_ = true
  · have hmem := (state_allowed_iff_mem cs.state_ to_).mp h
    have hok : cs.set_state to_ = .ok { cs with state_ := to_ } := by
      unfold client_state.set_state
      rw [if_pos h]
    exact ⟨⟨fun _ => hmem, fun _ => ⟨{ cs with state_ := to_ }, hok, rfl⟩⟩,
      fun hc => absurd hmem hc⟩
  · have hmem : (cs.state_, to_) ∉ permitted_state_pairs := by
      intro hc
      exact h ((state_allowed_iff_mem cs.state_ to_).mpr hc)
    have herr : cs.set_state to_ =
        .error (.unallowed_state_transition cs.state_ to_) := by
      unfold client_state.set_state
      rw [if_neg h]
    refine ⟨⟨fun hex => ?_, fun hc => absurd hc hmem⟩, fun _ => herr⟩
    obtain ⟨cs', hcs', _⟩ := hex
    rw [herr] at hcs'
    exact Except.noConfusion hcs'

/-- C1 witness: from the fresh client (state none) the transition to
idle succeeds. -/
theorem state_transition_table_correct_witness :
    ∃ cs', witness_client.set_state .s_idle = .ok cs' ∧
      cs'.state_ = .s_idle :=
  (state_transition_table_correct witness_client .s_idle).1.mpr (by decide)

/-- C7: a client mode transition succeeds exactly for
replicating→high-priority, high-priority→replicating,
replicating→TOI, TOI→replicating, high-priority→TOI and
TOI→high-priority; local has no outgoing transition; every other
attempt produces the unallowed-mode-transition fatal condition and,
since the exception is raised before the assignment, leaves the mode
unchanged. -/
theorem mode_transition_table_correct (cs : client_state)
    (to_ : client_mode) :
    ((∃ cs', cs.set_mode to_ = .ok cs' ∧ cs'.mode_ = to_) ↔
      (cs.mode_, to_) ∈ permitted_mode_pairs) ∧
    (∀ t : client_mode, (.m_local, t) ∉ permitted_mode_pairs) ∧
    ((cs.mode_, to_) ∉ permitted_mode_pairs →
      cs.set_mode to_ = .error (.unallowed_mode_transition cs.mode_ to_)) := by
  refine ⟨?_, by decide, ?_⟩
  · by_cases h : mode_transition_allowed cs.mode_ to_ = true
    · have hmem := (mode_allowed_iff_mem cs.mode_ to_).mp h
      have hok : cs.set_mode to_ = .ok { cs with mode_ := to_ } := by
        unfold client_state.set_mode
        rw [if_pos h]
      exact ⟨fun _ => hmem, fun _ => ⟨{ cs with mode_ := to_ }, hok, rfl⟩⟩
    · have hmem : (cs.mode_, to_) ∉ permitted_mode_pairs := by
        intro hc
        exact h ((mode_allowed_iff_mem cs.mode_ to_).mpr hc)
      have herr : cs.set_mode to_ =
          .error (.unallowed_mode_transition cs.mode_ to_) := by
        unfold client_state.set_mode
        rw [if_neg h]
      refine ⟨fun hex => ?_, fun hc => absurd hc hmem⟩
      obtain ⟨cs', hcs', _⟩ := hex
      rw [herr] at hcs'
      exact Except.noConfusion hcs'
  · intro hmem
    have h : ¬ mode_transition_allowed cs.mode_ to_ = true := by
      intro hc
      exact hmem ((mode_allowed_iff_mem cs.mode_ to_).mp hc)
    unfold client_state.set_mode
    rw [if_neg h]

/-- C7 witness: from a replicating client the transition to TOI
succeeds. -/
theorem mode_transition_table_correct_witness :
    ∃ cs',
      ({ witness_client with mode_ := .m_replicating } :
        client_state).set_mode .m_toi = .ok cs' ∧ cs'.mode_ = .m_toi :=
  (mode_transition_table_correct
    { witness_client with mode_ := .m_replicating } .m_toi).1.mpr (by decide)

/-- C8: `override_error(e)` raises the fatal condition exactly when
the current error is not success and `e` is success; in every other
case it sets the current error to `e`. -/
theorem override_error_correct (cs : client_state) (e : client_error) :
    (cs.current_error_ ≠ .e_success ∧ e = .e_success →
      cs.override_error e = .error .overriding_error_with_success) ∧
    (¬(cs.current_error_ ≠ .e_success ∧ e = .e_success) →
      cs.override_error e = .ok { cs with current_error_ := e }) := by
  unfold client_state.override_error
  constructor
  · intro h
    simp only [if_pos h]
  · intro h
    simp only [if_neg h]

/-- C8 witness: on the fresh client (error success) overriding with
deadlock sets the error to deadlock. -/
theorem override_error_correct_witness :
    witness_client.override_error .e_deadlock_error =
      .ok { witness_client with current_error_ := .e_deadlock_error } :=
  (override_error_correct witness_client .e_deadlock_error).2 (by decide)

/-- Overriding the current error with deadlock never raises the
fatal condition (deadlock is not success), whatever the current
error. -/
lemma override_error_deadlock_ok (cs : client_state) :
    cs.override_error .e_deadlock_error =
      .ok { cs with current_error_ := .e_deadlock_error } := by
  unfold client_state.override_error
  rw [if_neg]
  intro h
  exact client_error.noConfusion h.2

/-- Overriding the current error with error-during-commit never raises
the fatal condition, whatever the current error. -/
lemma override_error_commit_ok (cs : client_state) :
    cs.override_error .e_error_during_commit =
      .ok { cs with current_error_ := .e_error_during_commit } := by
  unfold client_state.override_error
  rw [if_neg]
  intro h
  exact client_error.noConfusion h.2

/-- C3 counterexample: on a freshly constructed client, `open(id)`
followed directly by `cleanup()` does not return the client to none:
the idle→none transition is outside the table, so `cleanup` raises the
unallowed-state-transition fatal condition (the claim omits the
intervening `close()`). -/
theorem open_cleanup_fatal_counterexample :
    (open_client witness_client 7).bind cleanup_client =
      .error (.unallowed_state_transition .s_idle .s_none) := by
  rfl

/-- C3 amended: for a freshly constructed client (state none, no
active transaction, error success), `open(id)` followed by `close()`
and `cleanup()` returns the client to the none state with no active
transaction and no error. -/
theorem open_close_cleanup_roundtrip (cs : client_state) (id : Nat)
    (hs : cs.state_ = .s_none) (ht : cs.transaction_.active = false)
    (he : cs.current_error_ = .e_success) :
    ∃ cs3, ((open_client cs id).bind close_client).bind cleanup_client =
        .ok cs3 ∧
      cs3.state_ = .s_none ∧ cs3.transaction_.active = false ∧
      cs3.current_error_ = .e_success := by
  obtain ⟨st, md, tm, err, ⟨act, txst⟩, meta, cid⟩ := cs
  have h1 : st = .s_none := hs
  have h2 : act = false := ht
  have h3 : err = .e_success := he
  subst h1
  subst h2
  subst h3
  exact ⟨_, rfl, rfl, rfl, rfl⟩

/-- C3 witness: the amended round trip evaluated on the fresh
client. -/
theorem open_close_cleanup_roundtrip_witness :
    ∃ cs3, ((open_client witness_client 7).bind close_client).bind
        cleanup_client = .ok cs3 ∧
      cs3.state_ = .s_none ∧ cs3.transaction_.active = false ∧
      cs3.current_error_ = .e_success :=
  open_close_cleanup_roundtrip witness_client 7 rfl rfl rfl

/-- A session in state executing whose active transaction a
high-priority applier has marked must-abort: the concrete input of the
asynchronous-BFA-during-command scenario. -/
def bfa_exec_client : client_state :=
  { state_ := .s_exec, mode_ := .m_replicating, toi_mode_ := .m_local,
    current_error_ := .e_success,
    transaction_ := { active := true, state := .s_must_abort },
    toi_meta_ := empty_ws_meta, id_ := 1 }

/-- The same session after `after_command_before_result`: error
deadlock, state result, transaction rolled back and cleaned up. -/
def bfa_result_client : client_state :=
  { state_ := .s_result, mode_ := .m_replicating, toi_mode_ := .m_local,
    current_error_ := .e_deadlock_error,
    transaction_ := { active := false, state := .s_aborted },
    toi_meta_ := empty_ws_meta, id_ := 1 }

/-- The same session after `after_command_after_result`: back to idle,
and — because the rollback left no active transaction — the error has
been reset to success. -/
def bfa_idle_client : client_state :=
  { state_ := .s_idle, mode_ := .m_replicating, toi_mode_ := .m_local,
    current_error_ := .e_success,
    transaction_ := { active := false, state := .s_aborted },
    toi_meta_ := empty_ws_meta, id_ := 1 }

/-- C2 counterexample: in the must-abort scenario
`after_command_before_result` does produce error deadlock and state
result, but the rollback plus transaction `after_statement` leaves no
active transaction, so the following `after_command_after_result`
takes the no-transaction branch and resets the error to success — the
error does not remain deadlock once the session is back to idle. -/
theorem bfa_error_not_retained_counterexample :
    after_command_before_result bfa_exec_client = .ok bfa_result_client ∧
    bfa_result_client.current_error_ = .e_deadlock_error ∧
    bfa_result_client.state_ = .s_result ∧
    after_command_after_result bfa_result_client = .ok bfa_idle_client ∧
    bfa_idle_client.state_ = .s_idle ∧
    bfa_idle_client.current_error_ = .e_success :=
  ⟨rfl, rfl, rfl, rfl, rfl, rfl⟩

/-- C2 amended: for a session in state executing with an active
transaction in the must-abort substate, `after_command_before_result`
performs rollback, sets the client error to deadlock and transitions
to result, leaving no active transaction; the deadlock error is what
the caller observes while the result is delivered.  The following
`after_command_after_result` transitions to idle and — clearing the
error to success exactly when no transaction is active, which is the
case here — resets the error to success. -/
theorem bfa_command_cycle (cs : client_state)
    (hs : cs.state_ = .s_exec) (ha : cs.transaction_.active = true)
    (hm : cs.transaction_.state = .s_must_abort) :
    ∃ cs1, after_command_before_result cs = .ok cs1 ∧
      cs1.current_error_ = .e_deadlock_error ∧ cs1.state_ = .s_result ∧
      cs1.transaction_.active = false ∧
      cs1.transaction_.state = .s_aborted ∧
      ∃ cs2, after_command_after_result cs1 = .ok cs2 ∧
        cs2.state_ = .s_idle ∧ cs2.current_error_ = .e_success := by
  obtain ⟨st, md, tm, err, ⟨act, txst⟩, meta, cid⟩ := cs
  have h1 : st = .s_exec := hs
  have h2 : act = true := ha
  have h3 : txst = .s_must_abort := hm
  subst h1
  subst h2
  subst h3
  cases err <;> exact ⟨_, rfl, rfl, rfl, rfl, rfl, _, rfl, rfl, rfl⟩

/-- C2 witness: the amended scenario evaluated on the concrete
must-abort session. -/
theorem bfa_command_cycle_witness :
    ∃ cs1, after_command_before_result bfa_exec_client = .ok cs1 ∧
      cs1.current_error_ = .e_deadlock_error ∧ cs1.state_ = .s_result ∧
      cs1.transaction_.active = false ∧
      cs1.transaction_.state = .s_aborted ∧
      ∃ cs2, after_command_after_result cs1 = .ok cs2 ∧
        cs2.state_ = .s_idle ∧ cs2.current_error_ = .e_success :=
  bfa_command_cycle bfa_exec_client rfl rfl rfl

/-- C6: for a client in state executing, `after_statement` invokes the
transaction's `after_statement` and then classifies: may-retry exactly
when the resulting client error is deadlock, the mode is replicating
and the client service reports autocommit; error exactly when the
resulting error is deadlock without that conjunction; success exactly
when the resulting error is not deadlock. -/
theorem after_statement_classifies (cs : client_state) (ac : Bool)
    (hs : cs.state_ = .s_exec) :
    ((after_statement ac cs).2 = .asr_may_retry ↔
      ((after_statement ac cs).1.current_error_ = .e_deadlock_error ∧
        cs.mode_ = .m_replicating ∧ ac = true)) ∧
    ((after_statement ac cs).2 = .asr_error ↔
      ((after_statement ac cs).1.current_error_ = .e_deadlock_error ∧
        ¬(cs.mode_ = .m_replicating ∧ ac = true))) ∧
    ((after_statement ac cs).2 = .asr_success ↔
      ¬(after_statement ac cs).1.current_error_ = .e_deadlock_error) := by
  obtain ⟨st, md, tm, err, ⟨act, txst⟩, meta, cid⟩ := cs
  cases err <;> cases md <;> cases ac <;>
    simp [after_statement, transaction.after_statement]

/-- C6 witness: a replicating autocommit session in state executing
with a deadlock error gets may-retry. -/
theorem after_statement_classifies_witness :
    (after_statement true
      { bfa_exec_client with current_error_ := .e_deadlock_error }).2 =
      .asr_may_retry :=
  ((after_statement_classifies
      { bfa_exec_client with current_error_ := .e_deadlock_error }
      true rfl).1).mpr (by decide)

/-- C5: in asynchronous rollback mode, `before_command` from idle with
an active transaction: in the must-abort substate it overrides the
client error to deadlock, rolls back, runs the transaction's
`after_statement` (leaving an inactive aborted transaction) and
returns 1 with the session in executing; in the aborted substate it
receives the same treatment (deadlock error, cleanup, return 1,
session executing); on the normal path it returns 0 with the session
in executing and the error and transaction untouched. -/
theorem before_command_async_branches (cs : client_state)
    (obs : Nat → transaction) (fuel : Nat)
    (hs : cs.state_ = .s_idle) (ha : cs.transaction_.active = true) :
    ∃ res, before_command .rm_async obs fuel cs = some res ∧
      (cs.transaction_.state = .s_must_abort →
        ∃ cs', res = .ok (cs', 1) ∧ cs'.state_ = .s_exec ∧
          cs'.current_error_ = .e_deadlock_error ∧
          cs'.transaction_.active = false ∧
          cs'.transaction_.state = .s_aborted) ∧
      (cs.transaction_.state = .s_aborted →
        ∃ cs', res = .ok (cs', 1) ∧ cs'.state_ = .s_exec ∧
          cs'.current_error_ = .e_deadlock_error ∧
          cs'.transaction_.active = false ∧
          cs'.transaction_.state = .s_aborted) ∧
      (cs.transaction_.state ≠ .s_must_abort →
        cs.transaction_.state ≠ .s_aborted →
        ∃ cs', res = .ok (cs', 0) ∧ cs'.state_ = .s_exec ∧
          cs'.current_error_ = cs.current_error_ ∧
          cs'.transaction_ = cs.transaction_) := by
  obtain ⟨st, md, tm, err, ⟨act, txst⟩, meta, cid⟩ := cs
  have h1 : st = .s_idle := hs
  have h2 : act = true := ha
  subst h1
  subst h2
  cases txst with
  | s_executing =>
      exact ⟨_, rfl, fun h => transaction_state.noConfusion h,
        fun h => transaction_state.noConfusion h,
        fun _ _ => ⟨_, rfl, rfl, rfl, rfl⟩⟩
  | s_must_abort =>
      refine ⟨_, rfl, fun _ => ?_,
        fun h => transaction_state.noConfusion h,
        fun h _ => absurd rfl h⟩
      cases err <;> exact ⟨_, rfl, rfl, rfl, rfl, rfl⟩
  | s_aborting =>
      exact ⟨_, rfl, fun h => transaction_state.noConfusion h,
        fun h => transaction_state.noConfusion h,
        fun _ _ => ⟨_, rfl, rfl, rfl, rfl⟩⟩
  | s_aborted =>
      refine ⟨_, rfl, fun h => transaction_state.noConfusion h,
        fun _ => ?_, fun _ h => absurd rfl h⟩
      cases err <;> exact ⟨_, rfl, rfl, rfl, rfl, rfl⟩

/-- A session in state idle whose active transaction was marked
must-abort between commands (asynchronous rollback mode). -/
def idle_must_abort_client : client_state :=
  { state_ := .s_idle, mode_ := .m_replicating, toi_mode_ := .m_local,
    current_error_ := .e_success,
    transaction_ := { active := true, state := .s_must_abort },
    toi_meta_ := empty_ws_meta, id_ := 2 }

/-- C5 witness: on the idle session with a must-abort transaction,
`before_command` in asynchronous mode returns 1 with error deadlock
and the session in executing. -/
theorem before_command_async_branches_witness :
    ∃ cs', before_command .rm_async
        (fun _ => { active := true, state := .s_must_abort }) 0
        idle_must_abort_client = some (.ok (cs', 1)) ∧
      cs'.state_ = .s_exec ∧ cs'.current_error_ = .e_deadlock_error := by
  obtain ⟨res, hres, h1, _, _⟩ :=
    before_command_async_branches idle_must_abort_client
      (fun _ => { active := true, state := .s_must_abort }) 0 rfl rfl
  obtain ⟨cs', hcs', hst, herr, _, _⟩ := h1 rfl
  rw [hcs'] at hres
  exact ⟨cs', hres, hst, herr⟩

/-- If some observation within the fuel bound is not in the aborting
substate, the spin-loop scan finds a non-aborting observation. -/
lemma first_non_aborting_finds (obs : Nat → transaction) :
    ∀ fuel start k, k < fuel → (obs (start + k)).state ≠ .s_aborting →
      ∃ j, first_non_aborting obs start fuel = some j ∧
        (obs j).state ≠ .s_aborting := by
  intro fuel
  induction fuel with
  | zero =>
      intro start k hk _
      exact absurd hk (Nat.not_lt_zero k)
  | succ n ih =>
      intro start k hk hobs
      by_cases h : (obs start).state = .s_aborting
      · have hstep : first_non_aborting obs start (n + 1) =
            first_non_aborting obs (start + 1) n := by
          show (if (obs start).state = .s_aborting
              then first_non_aborting obs (start + 1) n
              else some start) = first_non_aborting obs (start + 1) n
          rw [if_pos h]
        rw [hstep]
        cases k with
        | zero => exact absurd h (by simpa using hobs)
        | succ m =>
            have harith : start + 1 + m = start + (m + 1) := by omega
            exact ih (start + 1) m (Nat.lt_of_succ_lt_succ hk)
              (by rw [harith]; exact hobs)
      · refine ⟨start, ?_, h⟩
        show (if (obs start).state = .s_aborting
            then first_non_aborting obs (start + 1) n
            else some start) = some start
        rw [if_neg h]

/-- Running the post-wait body of `before_command` from idle never
raises a fatal condition: it ends in executing and the transaction is
either untouched or cleaned up to inactive-aborted. -/
lemma before_command_post_from_idle (cs : client_state)
    (hs : cs.state_ = .s_idle) :
    ∃ cs' ret, before_command_post cs = .ok (cs', ret) ∧
      cs'.state_ = .s_exec ∧
      (cs'.transaction_ = cs.transaction_ ∨
        cs'.transaction_ =
          { active := false, state := .s_aborted }) := by
  obtain ⟨st, md, tm, err, ⟨act, txst⟩, meta, cid⟩ := cs
  have h1 : st = .s_idle := hs
  subst h1
  cases act with
  | false => exact ⟨_, _, rfl, rfl, Or.inl rfl⟩
  | true =>
      cases txst with
      | s_executing => exact ⟨_, _, rfl, rfl, Or.inl rfl⟩
      | s_must_abort =>
          cases err <;> exact ⟨_, _, rfl, rfl, Or.inr rfl⟩
      | s_aborting => exact ⟨_, _, rfl, rfl, Or.inl rfl⟩
      | s_aborted =>
          cases err <;> exact ⟨_, _, rfl, rfl, Or.inr rfl⟩

/-- C4: in synchronous rollback mode, `before_command` invoked in
state idle spins while the transaction is observed in the aborting
substate; provided the background rollback eventually finishes — some
observation within the fuel bound is not aborting — the wait
terminates and the hook transitions idle→executing, with the
transaction no longer in the aborting substate. -/
theorem before_command_sync_wait_terminates (cs : client_state)
    (obs : Nat → transaction) (fuel k : Nat)
    (hs : cs.state_ = .s_idle) (hk : k < fuel)
    (hobs : (obs k).state ≠ .s_aborting) :
    ∃ res, before_command .rm_sync obs fuel cs = some res ∧
      ∃ cs' ret, res = .ok (cs', ret) ∧ cs'.state_ = .s_exec ∧
        cs'.transaction_.state ≠ .s_aborting := by
  obtain ⟨j, hj, hjab⟩ :=
    first_non_aborting_finds obs fuel 0 k hk (by simpa using hobs)
  have hrun : before_command .rm_sync obs fuel cs =
      some (before_command_post { cs with transaction_ := obs j }) := by
    unfold before_command
    rw [hj]
  obtain ⟨cs', ret, hpost, hst, htx⟩ :=
    before_command_post_from_idle { cs with transaction_ := obs j } hs
  refine ⟨_, hrun, cs', ret, hpost, hst, ?_⟩
  cases htx with
  | inl h => rw [h]; exact hjab
  | inr h => rw [h]; exact fun hc => transaction_state.noConfusion hc

/-- The observation sequence of the C4 witness: the background
rollbacker keeps the transaction aborting for two reads, then
completes. -/
def sync_wait_obs : Nat → transaction :=
  fun i =>
    if i < 2 then { active := true, state := .s_aborting }
    else { active := false, state := .s_aborted }

/-- An idle session used to instantiate the synchronous-wait
theorem. -/
def idle_sync_client : client_state :=
  { state_ := .s_idle, mode_ := .m_replicating, toi_mode_ := .m_local,
    current_error_ := .e_success,
    transaction_ := { active := true, state := .s_aborting },
    toi_meta_ := empty_ws_meta, id_ := 3 }

/-- C4 witness: with the rollback completing at the third observation,
`before_command` in synchronous mode terminates with the session in
executing. -/
theorem before_command_sync_wait_terminates_witness :
    ∃ res, before_command .rm_sync sync_wait_obs 3 idle_sync_client =
        some res ∧
      ∃ cs' ret, res = .ok (cs', ret) ∧ cs'.state_ = .s_exec ∧
        cs'.transaction_.state ≠ .s_aborting :=
  before_command_sync_wait_terminates idle_sync_client sync_wait_obs 3 2
    rfl (by decide) (by decide)

/-- C9: from mode M ∈ {replicating, high-priority}, a successful
`enter_toi` (the replicating overload calls the provider's enter-TOI;
the high-priority overload makes no provider call) saves M in the TOI
mode and shifts the mode to TOI; a following `leave_toi` (which calls
the provider's leave-TOI exactly when the saved mode was replicating)
restores the mode to M, resets the saved TOI mode to local and clears
the TOI meta. -/
theorem toi_roundtrip (cs : client_state) (pmeta : ws_meta)
    (lstat : provider_status)
    (hm : cs.mode_ = .m_replicating ∨ cs.mode_ = .m_high_priority) :
    ∃ cs1 calls1,
      (if cs.mode_ = .m_replicating then enter_toi_repl .success pmeta cs
        else enter_toi_hp pmeta cs) = .ok (cs1, 0, calls1) ∧
      cs1.toi_mode_ = cs.mode_ ∧ cs1.mode_ = .m_toi ∧
      (calls1 = if cs.mode_ = .m_replicating
        then [.enter_toi_call] else []) ∧
      ∃ cs2 ret2 calls2, leave_toi lstat cs1 = .ok (cs2, ret2, calls2) ∧
        cs2.mode_ = cs.mode_ ∧ cs2.toi_mode_ = .m_local ∧
        cs2.toi_meta_ = empty_ws_meta ∧
        (calls2 = if cs.mode_ = .m_replicating
          then [.leave_toi_call] else []) := by
  obtain ⟨st, md, tm, err, tx, meta, cid⟩ := cs
  cases hm with
  | inl h =>
      have h1 : md = .m_replicating := h
      subst h1
      refine ⟨_, _, rfl, rfl, rfl, rfl, ?_⟩
      cases lstat with
      | success => exact ⟨_, _, _, rfl, rfl, rfl, rfl, rfl⟩
      | error_warning =>
          cases err <;> exact ⟨_, _, _, rfl, rfl, rfl, rfl, rfl⟩
      | error_transaction_missing =>
          cases err <;> exact ⟨_, _, _, rfl, rfl, rfl, rfl, rfl⟩
      | error_certification_failed =>
          cases err <;> exact ⟨_, _, _, rfl, rfl, rfl, rfl, rfl⟩
      | error_bf_abort =>
          cases err <;> exact ⟨_, _, _, rfl, rfl, rfl, rfl, rfl⟩
      | error_size_exceeded =>
          cases err <;> exact ⟨_, _, _, rfl, rfl, rfl, rfl, rfl⟩
      | error_connection_failed =>
          cases err <;> exact ⟨_, _, _, rfl, rfl, rfl, rfl, rfl⟩
      | error_not_allowed =>
          cases err <;> exact ⟨_, _, _, rfl, rfl, rfl, rfl, rfl⟩
      | error_fatal =>
          cases err <;> exact ⟨_, _, _, rfl, rfl, rfl, rfl, rfl⟩
  | inr h =>
      have h1 : md = .m_high_priority := h
      subst h1
      exact ⟨_, _, rfl, rfl, rfl, rfl, _, _, _, rfl, rfl, rfl, rfl, rfl⟩

/-- A replicating session in state executing, the concrete input for
the TOI theorems. -/
def exec_repl_client : client_state :=
  { state_ := .s_exec, mode_ := .m_replicating, toi_mode_ := .m_local,
    current_error_ := .e_success,
    transaction_ := { active := false, state := .s_executing },
    toi_meta_ := empty_ws_meta, id_ := 4 }

/-- C9 witness: the TOI round trip evaluated on the replicating
session, with the provider succeeding on both calls. -/
theorem toi_roundtrip_witness :
    ∃ cs1 calls1,
      (if exec_repl_client.mode_ = .m_replicating
        then enter_toi_repl .success { tag := 5 } exec_repl_client
        else enter_toi_hp { tag := 5 } exec_repl_client) =
          .ok (cs1, 0, calls1) ∧
      cs1.toi_mode_ = exec_repl_client.mode_ ∧ cs1.mode_ = .m_toi ∧
      (calls1 = if exec_repl_client.mode_ = .m_replicating
        then [.enter_toi_call] else []) ∧
      ∃ cs2 ret2 calls2,
        leave_toi .success cs1 = .ok (cs2, ret2, calls2) ∧
        cs2.mode_ = exec_repl_client.mode_ ∧
        cs2.toi_mode_ = .m_local ∧
        cs2.toi_meta_ = empty_ws_meta ∧
        (calls2 = if exec_repl_client.mode_ = .m_replicating
          then [.leave_toi_call] else []) :=
  toi_roundtrip exec_repl_client { tag := 5 } .success (Or.inl rfl)

/-- C10: in replicating mode and state executing, when the provider's
enter-TOI call returns any status other than success, `enter_toi`
returns 1, overrides the client error to error-during-commit and
leaves the lifecycle state, the mode (still replicating), the saved
TOI mode and the TOI meta all unchanged. -/
theorem enter_toi_provider_failure (cs : client_state)
    (ps : provider_status) (pmeta : ws_meta)
    (hm : cs.mode_ = .m_replicating) (hs : cs.state_ = .s_exec)
    (hp : ps ≠ .success) :
    ∃ cs', enter_toi_repl ps pmeta cs =
        .ok (cs', 1, [.enter_toi_call]) ∧
      cs'.current_error_ = .e_error_during_commit ∧
      cs'.mode_ = .m_replicating ∧ cs'.state_ = cs.state_ ∧
      cs'.toi_mode_ = cs.toi_mode_ ∧ cs'.toi_meta_ = cs.toi_meta_ := by
  obtain ⟨st, md, tm, err, tx, meta, cid⟩ := cs
  have h1 : md = .m_replicating := hm
  subst h1
  cases ps with
  | success => exact absurd rfl hp
  | error_warning => cases err <;> exact ⟨_, rfl, rfl, rfl, rfl, rfl, rfl⟩
  | error_transaction_missing =>
      cases err <;> exact ⟨_, rfl, rfl, rfl, rfl, rfl, rfl⟩
  | error_certification_failed =>
      cases err <;> exact ⟨_, rfl, rfl, rfl, rfl, rfl, rfl⟩
  | error_bf_abort => cases err <;> exact ⟨_, rfl, rfl, rfl, rfl, rfl, rfl⟩
  | error_size_exceeded =>
      cases err <;> exact ⟨_, rfl, rfl, rfl, rfl, rfl, rfl⟩
  | error_connection_failed =>
      cases err <;> exact ⟨_, rfl, rfl, rfl, rfl, rfl, rfl⟩
  | error_not_allowed =>
      cases err <;> exact ⟨_, rfl, rfl, rfl, rfl, rfl, rfl⟩
  | error_fatal => cases err <;> exact ⟨_, rfl, rfl, rfl, rfl, rfl, rfl⟩

/-- C10 witness: a failed provider enter-TOI on the replicating
session returns 1 with error-during-commit and the mode still
replicating. -/
theorem enter_toi_provider_failure_witness :
    ∃ cs', enter_toi_repl .error_connection_failed { tag := 9 }
        exec_repl_client = .ok (cs', 1, [.enter_toi_call]) ∧
      cs'.current_error_ = .e_error_during_commit ∧
      cs'.mode_ = .m_replicating ∧
      cs'.state_ = exec_repl_client.state_ ∧
      cs'.toi_mode_ = exec_repl_client.toi_mode_ ∧
      cs'.toi_meta_ = exec_repl_client.toi_meta_ :=
  enter_toi_provider_failure exec_repl_client .error_connection_failed
    { tag := 9 } rfl rfl (fun h => provider_status.noConfusion h)

end Wsrep
